import Mathlib

/-!
Shallow embedding of the API gateway in cmd/api-gateway/main.go:
configuration and route table, the authentication middleware body, the
rate-limit token bucket, the reverse-proxy handler, the handler chains
main wires for each registered route, and gin's per-method route
registration with its wildcard-conflict behavior — the registration in
registerRoutes conflicts, so the model also covers how far startup
gets.
-/

namespace Gateway

/-- Go strings.HasPrefix, as a test on the character sequences of the
two strings. -/
def hasPre (s pre : String) : Bool :=
  pre.data.isPrefixOf s.data

/-- Go strings.TrimPrefix: returns the string without the provided
leading prefix string; the string is returned unchanged when it does
not start with it. -/
def trimPre (s pre : String) : String :=
  if hasPre s pre then { data := s.data.drop pre.data.length } else s

/-- Config struct for the API gateway (main.go). -/
structure Config where
  port : String
  authServiceURL : String
  apiServiceURL : String
  rateLimit : Nat
  rateLimitInterval : Nat
  timeout : Nat
deriving Repr, DecidableEq

/-- loadConfig's built-in defaults (before environment overrides). -/
def loadConfigDefaults : Config :=
  { port := "8080"
    authServiceURL := "http://auth-service:8080"
    apiServiceURL := "http://api-service:8080"
    rateLimit := 100
    rateLimitInterval := 1
    timeout := 30 }

/-- ServiceRoute defines a route proxied through the gateway. -/
structure ServiceRoute where
  name : String
  pathBase : String
  url : String
  methods : List String
deriving Repr, DecidableEq

/-- The four service routes defined in main. -/
def mainRoutes : List ServiceRoute :=
  [ { name := "API Service", pathBase := "/api/v1",
      url := loadConfigDefaults.apiServiceURL,
      methods := ["GET", "POST", "PUT", "DELETE"] }
  , { name := "Deployment Service", pathBase := "/api/v1/deployments",
      url := "http://deployment-service:8080",
      methods := ["GET", "POST", "PUT", "DELETE"] }
  , { name := "Monitoring Service", pathBase := "/api/v1/monitoring",
      url := "http://monitoring-service:8080",
      methods := ["GET"] }
  , { name := "Configuration Service", pathBase := "/api/v1/configs",
      url := "http://configuration-service:8080",
      methods := ["GET", "POST", "PUT", "DELETE"] } ]

/-- A JSON-decoded Go value. The gateway only ever inspects the string
shape (the sub claim in forwardUserContext); every other shape is
carried through opaquely. -/
inductive GoValue
  | str (s : String)
  | other
deriving Repr, DecidableEq

/-- The claims mapping decoded from the identity service body
(map from string to interface value in Go). -/
abbrev Claims := List (String × GoValue)

/-- An inbound HTTP request as the gin handlers see it: method, URL
path, raw query, the URL struct's Scheme field, Host, the resolved
client IP, headers, and an opaque body. urlScheme is what
c.Request.URL.Scheme reads; net/http leaves it empty for every
origin-form server request, so for requests this server receives it is
the empty string, never the scheme the client actually used. -/
structure Request where
  method : String
  path : String
  rawQuery : String
  urlScheme : String
  host : String
  clientIP : String
  headers : List (String × String)
  body : String
deriving Repr, DecidableEq

/-- Header list as a multimap, in insertion order, mirroring
net/http Header semantics for the operations the gateway uses. -/
abbrev Headers := List (String × String)

/-- All values held for a key, in order. -/
def getAllHeader (hs : Headers) (k : String) : List String :=
  (hs.filter (fun p => p.1 = k)).map (fun p => p.2)

/-- Header.Get: the first value for the key, or the empty string.
This is also gin's c.GetHeader. -/
def getHeader (hs : Headers) (k : String) : String :=
  match getAllHeader hs k with
  | [] => ""
  | v :: _ => v

/-- Header.Set: replace all values for the key with the single value. -/
def setHeader (hs : Headers) (k v : String) : Headers :=
  (hs.filter (fun p => p.1 ≠ k)) ++ [(k, v)]

/-- Header.Add as used by copyHeaders: append one value for the key. -/
def addHeader (hs : Headers) (k v : String) : Headers :=
  hs ++ [(k, v)]

/-- The fixed timeout, in seconds, that authMiddleware puts on its
identity-service call (context.WithTimeout with 5 seconds). -/
def authTimeoutSeconds : Nat := 5

/-- One outbound call to the identity service: target URL, method, the
Authorization header set on it, and the context timeout in seconds. -/
structure IdentityCall where
  url : String
  method : String
  authHeader : String
  timeoutSeconds : Nat
deriving Repr, DecidableEq

/-- The observable outcome of the single identity-service round trip:
a transport-level failure, or a response with a status code and the
result of decoding its body as a JSON claims mapping (none when the
body does not decode). -/
inductive IdentityResponse
  | netErr
  | resp (status : Nat) (claims : Option Claims)
deriving Repr, DecidableEq

/-- What authMiddleware decides for the request: abort with a status,
or let it continue with the decoded claims set in the context. -/
inductive AuthStep
  | abort (status : Nat)
  | next (claims : Claims)
deriving Repr, DecidableEq

/-- authMiddleware (main.go lines 67 to 116): trim an optional
"Bearer " prefix off the Authorization header; an empty result aborts
401 with no outbound call; otherwise one POST to
authServiceURL/validate is issued with a 5 second timeout, carrying
"Bearer " plus the trimmed token. A transport failure aborts 500, a
non-200 status aborts 401, a 200 body that fails to decode aborts 500,
and a decoded 200 continues with the claims. Returns the decision and
the list of identity-service calls made. -/
def authRun (authServiceURL : String) (idResp : IdentityResponse)
    (authHeader : String) : AuthStep × List IdentityCall :=
  let token := trimPre authHeader "Bearer "
  if token = "" then
    (.abort 401, [])
  else
    let call : IdentityCall :=
      { url := authServiceURL ++ "/validate", method := "POST",
        authHeader := "Bearer " ++ token,
        timeoutSeconds := authTimeoutSeconds }
    match idResp with
    | .netErr => (.abort 500, [call])
    | .resp status claims =>
      if status ≠ 200 then (.abort 401, [call])
      else
        match claims with
        | none => (.abort 500, [call])
        | some cs => (.next cs, [call])

/-- The outbound request createProxyHandler constructs. -/
structure OutRequest where
  method : String
  url : String
  headers : Headers
  body : String
deriving Repr, DecidableEq

/-- The observable outcome of the single upstream round trip: a
transport-level failure, or a response with status, headers and body. -/
inductive UpstreamResult
  | netErr
  | resp (status : Nat) (headers : Headers) (body : String)
deriving Repr, DecidableEq

/-- The suffix createProxyHandler computes: the request path with the
route's PathBase trimmed off (strings.TrimPrefix, no normalization). -/
def proxySuffix (route : ServiceRoute) (path : String) : String :=
  trimPre path route.pathBase

/-- The target URL createProxyHandler builds: route URL plus the
suffix, with the raw query appended when it is nonempty. -/
def buildTargetURL (route : ServiceRoute) (path rawQuery : String) : String :=
  let t := route.url ++ proxySuffix route path
  if rawQuery = "" then t else t ++ "?" ++ rawQuery

/-- copyHeaders: Add every value of every inbound header onto the
(initially empty) outbound header map. -/
def copyHeaders (src : Headers) : Headers :=
  src.foldl (fun dst p => addHeader dst p.1 p.2) []

/-- forwardUserContext: c.Get("user") yields the claims only when some
earlier middleware stored them (none does on the proxied chains main
wires, so the value is absent); when present and holding a string
value under the key sub, Set it as the X-User-ID header. -/
def forwardUserContext (user? : Option Claims) (hs : Headers) : Headers :=
  match user? with
  | some claims =>
    match claims.lookup "sub" with
    | some (.str uid) => setHeader hs "X-User-ID" uid
    | _ => hs
  | none => hs

/-- addForwardedHeaders: Set X-Forwarded-For to the client IP,
X-Forwarded-Proto to the request URL Scheme field (empty for
origin-form server requests), and X-Forwarded-Host to the request
Host. -/
def addForwardedHeaders (req : Request) (hs : Headers) : Headers :=
  setHeader (setHeader (setHeader hs
    "X-Forwarded-For" req.clientIP)
    "X-Forwarded-Proto" req.urlScheme)
    "X-Forwarded-Host" req.host

/-- The full outbound request construction of createProxyHandler:
method and streamed body carried over, target URL from the route,
headers copied then user context and forwarded headers applied. -/
def buildProxyRequest (route : ServiceRoute) (user? : Option Claims)
    (req : Request) : OutRequest :=
  { method := req.method
    url := buildTargetURL route req.path req.rawQuery
    headers := addForwardedHeaders req
      (forwardUserContext user? (copyHeaders req.headers))
    body := req.body }

/-- What a route handler leaves behind: response status and body, the
number of error-level log lines it emitted, and the upstream calls it
sent. -/
structure HandlerResult where
  status : Nat
  body : String
  errorLogLines : Nat
  upstreamCalls : List OutRequest
deriving Repr, DecidableEq

/-- createProxyHandler after the request is built: one upstream call;
a transport failure is logged and answered 503 Service Unavailable,
otherwise the upstream status and body are relayed verbatim. -/
def proxyHandler (route : ServiceRoute) (user? : Option Claims)
    (upstream : UpstreamResult) (req : Request) : HandlerResult :=
  let out := buildProxyRequest route user? req
  match upstream with
  | .netErr =>
    { status := 503, body := "\x7b\"error\":\"Service Unavailable\"\x7d",
      errorLogLines := 1, upstreamCalls := [out] }
  | .resp s _ b =>
    { status := s, body := b, errorLogLines := 0, upstreamCalls := [out] }

/-- The static prefix gin registers for a route: the group path /api
plus the route PathBase with a leading /api trimmed (registerRoutes,
main.go lines 281 to 312). For the routes in main this equals the
PathBase itself. -/
def registeredBase (route : ServiceRoute) : String :=
  "/api" ++ trimPre route.pathBase "/api"

/-- The full registered gin pattern for a route: the static prefix
followed by a catch-all path segment. This is what c.FullPath()
reports for requests the route handles, and what the metrics counter
is keyed by. -/
def routePattern (route : ServiceRoute) : String :=
  registeredBase route ++ "/*path"

/-- The methods registerRoutes actually binds handlers for: only the
five cases of its switch statement. -/
def registeredMethods (route : ServiceRoute) : List String :=
  route.methods.filter (fun m => m ∈ ["GET", "POST", "PUT", "DELETE", "PATCH"])

/-- The static base of a registered catch-all pattern: a pattern of
the shape base/*path yields its base; a static pattern (such as
/health) yields none. Every pattern registerRoutes produces ends in
the /*path catch-all segment. -/
def catchAllBase? (p : String) : Option String :=
  if "/*path".data.isSuffixOf p.data then
    some { data := p.data.take (p.data.length - "/*path".data.length) }
  else none

/-- gin's httprouter-style per-method tree rejects a new route whose
path walks into an existing catch-all (and, symmetrically, a new
catch-all placed over existing routes): node.addRoute panics with a
wildcard-conflict message. This predicate holds exactly when
registering newP into a tree already holding q panics. -/
def patternConflict (q newP : String) : Bool :=
  match catchAllBase? q with
  | some b => hasPre newP (b ++ "/")
  | none =>
    match catchAllBase? newP with
    | some b' => hasPre q (b' ++ "/")
    | none => q = newP

/-- Register one pattern into one method tree (kept as the list of
patterns already registered, in order): the first conflicting existing
pattern aborts registration — the error carries the new and the
existing pattern, standing for gin's panic. -/
def addPattern (existing : List String) (p : String) :
    Except (String × String) (List String) :=
  match existing.find? (fun q => patternConflict q p) with
  | some q => Except.error (p, q)
  | none => Except.ok (existing ++ [p])

/-- The per-method routing trees, each kept as its pattern list. -/
abbrev MethodTrees := List (String × List String)

/-- Register one (method, pattern) pair into the trees. -/
def addToTrees (trees : MethodTrees) (m p : String) :
    Except (String × String) MethodTrees :=
  let existing := (trees.lookup m).getD []
  match addPattern existing p with
  | Except.error e => Except.error e
  | Except.ok l => Except.ok ((trees.filter (fun t => t.1 ≠ m)) ++ [(m, l)])

/-- Every (method, pattern) registration main performs, in program
order: GET /health (line 369), GET /metrics (line 374) — the authGroup
created at lines 377-378 registers no routes — then registerRoutes
walks the route slice in order and, per route, its methods in order
(lines 286-309). -/
def registrationSeq (routes : List ServiceRoute) : List (String × String) :=
  [("GET", "/health"), ("GET", "/metrics")] ++
  routes.foldr
    (fun r acc => (registeredMethods r).map (fun m => (m, routePattern r)) ++ acc)
    []

/-- Building the gin engine's routing trees as main does: fold every
registration in order; the first wildcard conflict aborts with the
panicking pair. main has no recover around this (gin.Recovery guards
request handling only), so an error here means the process dies at
line 381, before ListenAndServe at line 392. -/
def ginSetup (routes : List ServiceRoute) :
    Except (String × String) MethodTrees :=
  (registrationSeq routes).foldlM (fun trees mp => addToTrees trees mp.1 mp.2) []

/-- Whether main reaches ListenAndServe: only when every route
registration succeeds. -/
def mainStarts (routes : List ServiceRoute) : Bool :=
  match ginSetup routes with
  | Except.ok _ => true
  | Except.error _ => false

/-- The handlers and middleware appearing in main, as chain elements. -/
inductive Handler
  | recovery
  | logging
  | rateLimit
  | metrics
  | auth
  | health
  | metricsEndpoint
  | proxy (route : ServiceRoute)
deriving Repr, DecidableEq

/-- The engine-global middleware, in the order main installs it with
router.Use: Recovery (line 363), logging (line 364), rate limiting
(line 365), metrics (line 366). Every registered route's chain starts
with exactly these. -/
def mainGlobalChain : List Handler :=
  [Handler.recovery, Handler.logging, Handler.rateLimit, Handler.metrics]

/-- The chain gin assembles for GET /health (line 369): the global
middleware followed by the health handler. The auth middleware is not
in it, but the rate limiter and the metrics middleware are. -/
def healthChain : List Handler :=
  mainGlobalChain ++ [Handler.health]

/-- The chain registerRoutes attaches to a proxied route: its own
engine.Group("/api") (line 283) snapshots only the engine-global
middleware, so the chain is global middleware plus the proxy handler.
The auth middleware lives on the separate authGroup (lines 377-378),
which registers no routes, so no proxied chain contains it. -/
def proxiedRouteChain (route : ServiceRoute) : List Handler :=
  mainGlobalChain ++ [Handler.proxy route]

/-- The token bucket behind golang.org/x/time/rate.NewLimiter as
rateLimitMiddleware constructs it: burst capacity is the configured
rate limit, and tokens refill continuously at the limit rate (one
token per configured interval), capped at the capacity. Time is in
nanoseconds; tokens are exact rationals. -/
structure TokenBucket where
  capacity : Nat
  refillPerNs : ℚ
  tokens : ℚ
  lastNs : Nat
deriving Repr, DecidableEq

/-- Advance the bucket to a (non-decreasing) time: credit the elapsed
time at the refill rate, capped at the capacity. -/
def TokenBucket.advance (b : TokenBucket) (nowNs : Nat) : TokenBucket :=
  { b with
    tokens := min (b.capacity : ℚ) (b.tokens + b.refillPerNs * ((nowNs - b.lastNs : Nat) : ℚ))
    lastNs := nowNs }

/-- limiter.Allow(): advance to now, then withdraw one token when at
least one is available, reporting whether the request is admitted. -/
def TokenBucket.allow (b : TokenBucket) (nowNs : Nat) : Bool × TokenBucket :=
  let b' := b.advance nowNs
  if 1 ≤ b'.tokens then (true, { b' with tokens := b'.tokens - 1 })
  else (false, b')

/-- A freshly constructed limiter: full bucket at its creation time. -/
def freshBucket (capacity : Nat) (refillPerNs : ℚ) (nowNs : Nat) : TokenBucket :=
  { capacity := capacity, refillPerNs := refillPerNs,
    tokens := (capacity : ℚ), lastNs := nowNs }

/-- Run n consecutive admission checks at one instant, collecting the
verdicts in order. -/
def allowRun (b : TokenBucket) (nowNs : Nat) : Nat → List Bool × TokenBucket
  | 0 => ([], b)
  | n + 1 =>
    let r := b.allow nowNs
    let rest := allowRun r.2 nowNs n
    (r.1 :: rest.1, rest.2)

/-- The API Service route exactly as main defines it: the /api/v1
catch-all that every later, more specific route collides with. -/
def apiServiceRoute : ServiceRoute :=
  { name := "API Service", pathBase := "/api/v1",
    url := loadConfigDefaults.apiServiceURL,
    methods := ["GET", "POST", "PUT", "DELETE"] }

/-- The Configuration Service route exactly as main registers it. -/
def configsRoute : ServiceRoute :=
  { name := "Configuration Service", pathBase := "/api/v1/configs",
    url := "http://configuration-service:8080",
    methods := ["GET", "POST", "PUT", "DELETE"] }

/-- The Monitoring Service route exactly as main registers it. -/
def monitoringRoute : ServiceRoute :=
  { name := "Monitoring Service", pathBase := "/api/v1/monitoring",
    url := "http://monitoring-service:8080", methods := ["GET"] }

/-- A concrete proxied request with no Authorization header. Its
urlScheme is empty, as net/http delivers for server requests. -/
def anonConfigsReq : Request :=
  { method := "GET", path := "/api/v1/configs/foo", rawQuery := "",
    urlScheme := "", host := "gw.local", clientIP := "10.0.0.7",
    headers := [("Accept", "application/json")], body := "" }

/-- A concrete POST against the monitoring route, which only registers
GET handlers. -/
def wrongMethodReq : Request :=
  { method := "POST", path := "/api/v1/monitoring/foo", rawQuery := "",
    urlScheme := "", host := "gw.local", clientIP := "10.0.0.7",
    headers := [("Authorization", "Bearer tok")], body := "" }

/-- A concrete request that reached the server over TLS: its original
scheme is https, but the URL.Scheme field the handler reads is empty,
as net/http delivers for every origin-form server request. -/
def tlsReq : Request :=
  { method := "GET", path := "/api/v1/configs/foo", rawQuery := "",
    urlScheme := "", host := "gw.example", clientIP := "203.0.113.5",
    headers := [("Authorization", "Bearer tok")], body := "" }

/-- A concrete richer request used to exercise the proxy request
construction: a query string, extra headers, and a body. -/
def richProxyReq : Request :=
  { method := "PUT", path := "/api/v1/configs/items/9", rawQuery := "x=1&y=2",
    urlScheme := "", host := "gw.example", clientIP := "203.0.113.5",
    headers := [("Authorization", "Bearer tok"), ("Accept", "application/json")],
    body := "payload" }

/-- Concrete identity-service claims with a string subject. -/
def aliceClaims : Claims := [("sub", GoValue.str "alice")]

/-!
Helper lemmas about the header operations. They are shared by several
claim theorems.
-/

theorem foldl_addHeader (l acc : Headers) :
    l.foldl (fun dst p => addHeader dst p.1 p.2) acc = acc ++ l := by
  induction l generalizing acc with
  | nil => simp
  | cons p t ih =>
    rw [List.foldl_cons, ih]
    simp [addHeader]

theorem copyHeaders_eq (src : Headers) : copyHeaders src = src := by
  simpa using foldl_addHeader src []

theorem getAllHeader_cons (p : String × String) (t : Headers) (k : String) :
    getAllHeader (p :: t) k =
      if p.1 = k then p.2 :: getAllHeader t k else getAllHeader t k := by
  by_cases h : p.1 = k <;> simp [getAllHeader, List.filter_cons, h]

theorem getAllHeader_append (l1 l2 : Headers) (k : String) :
    getAllHeader (l1 ++ l2) k = getAllHeader l1 k ++ getAllHeader l2 k := by
  simp [getAllHeader, List.filter_append]

theorem getAllHeader_filter_ne (hs : Headers) (k : String) :
    getAllHeader (hs.filter (fun p => p.1 ≠ k)) k = [] := by
  induction hs with
  | nil => rfl
  | cons p t ih =>
    by_cases h : p.1 = k
    · simpa [List.filter_cons, h] using ih
    · simpa [List.filter_cons, h, getAllHeader_cons] using ih

theorem getAllHeader_setHeader_self (hs : Headers) (k v : String) :
    getAllHeader (setHeader hs k v) k = [v] := by
  simp [setHeader, getAllHeader_append, getAllHeader_filter_ne,
    getAllHeader_cons, getAllHeader]

theorem getAllHeader_setHeader_ne (hs : Headers) (k v k' : String)
    (hne : k' ≠ k) :
    getAllHeader (setHeader hs k v) k' = getAllHeader hs k' := by
  have hkk : ¬ k = k' := fun hc => hne hc.symm
  have hsingle : getAllHeader [(k, v)] k' = [] := by
    simp [getAllHeader_cons, hkk, getAllHeader]
  have hfilter : getAllHeader (hs.filter (fun p => p.1 ≠ k)) k'
      = getAllHeader hs k' := by
    induction hs with
    | nil => rfl
    | cons p t ih =>
      by_cases h : p.1 = k
      · simpa [List.filter_cons, h, getAllHeader_cons, hkk] using ih
      · by_cases h2 : p.1 = k'
        · simpa [List.filter_cons, h, getAllHeader_cons, h2, hne] using ih
        · simpa [List.filter_cons, h, getAllHeader_cons, h2] using ih
  rw [setHeader, getAllHeader_append, hsingle, List.append_nil, hfilter]

theorem getHeader_setHeader_self (hs : Headers) (k v : String) :
    getHeader (setHeader hs k v) k = v := by
  simp [getHeader, getAllHeader_setHeader_self]

theorem getHeader_setHeader_ne (hs : Headers) (k v k' : String)
    (hne : k' ≠ k) : getHeader (setHeader hs k v) k' = getHeader hs k' := by
  simp [getHeader, getAllHeader_setHeader_ne hs k v k' hne]

/-!
Reduction lemmas for the auth middleware and the routing core.
-/

theorem authRun_no_credential (url : String) (idResp : IdentityResponse)
    (h : String) (hcred : trimPre h "Bearer " = "") :
    authRun url idResp h = (.abort 401, []) := by
  simp [authRun, hcred]

theorem authRun_calls (url : String) (idResp : IdentityResponse)
    (h : String) (hcred : trimPre h "Bearer " ≠ "") :
    (authRun url idResp h).2 =
      [{ url := url ++ "/validate", method := "POST",
         authHeader := "Bearer " ++ trimPre h "Bearer ",
         timeoutSeconds := authTimeoutSeconds }] := by
  cases idResp with
  | netErr => simp [authRun, hcred]
  | resp status claims =>
    by_cases hs : status = 200
    · cases claims <;> simp [authRun, hcred, hs]
    · simp [authRun, hcred, hs]

theorem advance_same_instant (cap : Nat) (rat : ℚ) (t m : Nat)
    (hm : m ≤ cap) :
    TokenBucket.advance ⟨cap, rat, (m : ℚ), t⟩ t = ⟨cap, rat, (m : ℚ), t⟩ := by
  simp only [TokenBucket.advance, Nat.sub_self, Nat.cast_zero, mul_zero,
    add_zero]
  congr 1
  exact min_eq_right (by exact_mod_cast hm)

theorem allowRun_same_instant (cap : Nat) (rat : ℚ) (t : Nat) :
    ∀ (n m : Nat), m ≤ cap →
      (allowRun ⟨cap, rat, (m : ℚ), t⟩ t n).1
        = List.replicate (min m n) true ++ List.replicate (n - min m n) false := by
  intro n
  induction n with
  | zero => intro m _; simp [allowRun]
  | succ n ih =>
    intro m hm
    match m with
    | 0 =>
      have hno : ¬ (1 : ℚ) ≤ ((0 : Nat) : ℚ) := by norm_num
      have hallow : TokenBucket.allow ⟨cap, rat, ((0 : Nat) : ℚ), t⟩ t
          = (false, ⟨cap, rat, ((0 : Nat) : ℚ), t⟩) := by
        simp only [TokenBucket.allow, advance_same_instant cap rat t 0 hm]
        rw [if_neg hno]
      simp only [allowRun, hallow]
      rw [ih 0 hm]
      simp [List.replicate_succ]
    | m' + 1 =>
      have hyes : (1 : ℚ) ≤ ((m' + 1 : Nat) : ℚ) := by
        push_cast; linarith
      have htok : ((m' + 1 : Nat) : ℚ) - 1 = ((m' : Nat) : ℚ) := by
        push_cast; ring
      have hallow : TokenBucket.allow ⟨cap, rat, ((m' + 1 : Nat) : ℚ), t⟩ t
          = (true, ⟨cap, rat, ((m' : Nat) : ℚ), t⟩) := by
        simp only [TokenBucket.allow, advance_same_instant cap rat t (m' + 1) hm]
        rw [if_pos hyes, htok]
      simp only [allowRun, hallow]
      rw [ih m' (Nat.le_of_succ_le hm)]
      simp [Nat.succ_min_succ, List.replicate_succ, Nat.succ_sub_succ]

/-!
Claim theorems.
-/

/-- Claim C1: the claim requires every terminal state to yield one log
line and one metrics observation, but no request ever reaches a
terminal state: registering the route table of main panics — the
Deployment Service pattern /api/v1/deployments/*path walks into the
already-registered API Service catch-all /api/v1/*path in the GET
tree, gin's addRoute panics, and the process dies in registerRoutes
before ListenAndServe. This theorem evaluates the registration model
at main's route table and exhibits the conflicting pair. -/
theorem C1_registration_panics :
    ginSetup mainRoutes
      = Except.error ("/api/v1/deployments/*path", "/api/v1/*path") :=
  rfl

/-- Claim C2: GET /health is registered (line 369), but main never
reaches ListenAndServe because route registration panics afterwards
(line 381), so no /health request is ever answered; and as registered,
the /health chain contains the rate-limit and metrics middleware
(router.Use at lines 364-366 precedes the route), contradicting the
claim's zero-involvement requirement even for a hypothetically served
request. -/
theorem C2_health_never_served :
    mainStarts mainRoutes = false ∧
    Handler.rateLimit ∈ healthChain ∧
    Handler.metrics ∈ healthChain ∧
    Handler.auth ∉ healthChain := by
  refine ⟨rfl, by decide, by decide, by decide⟩

/-- Claim C3: the proxied routes carry no authentication step — the
auth middleware is attached only to authGroup (lines 377-378), which
registers no routes, while registerRoutes builds its own /api group
holding only the global middleware — so a credential-less request that
reached the configuration route's handler would be forwarded upstream
(one outbound call, upstream status relayed), not answered 401 with
zero calls as the claim requires. -/
theorem C3_unauthenticated_forwarded :
    Handler.auth ∉ proxiedRouteChain configsRoute ∧
    (proxyHandler configsRoute none (UpstreamResult.resp 200 [] "ok")
        anonConfigsReq).status = 200 ∧
    (proxyHandler configsRoute none (UpstreamResult.resp 200 [] "ok")
        anonConfigsReq).upstreamCalls
      = [buildProxyRequest configsRoute none anonConfigsReq] ∧
    (proxyHandler configsRoute none (UpstreamResult.resp 200 [] "ok")
        anonConfigsReq).status ≠ 401 := by
  refine ⟨by decide, rfl, rfl, by decide⟩

/-- Claim C4: a request with a bearer credential makes exactly one
identity-service call, a POST to the validate endpoint carrying the
credential under a 5 second timeout; a network failure of that call
aborts 500, a non-200 status aborts 401, an undecodable 200 body
aborts 500, and a decoded 200 lets the request proceed with the
claims. -/
theorem C4_identity_call_and_mapping (url h : String)
    (idResp : IdentityResponse) (hcred : trimPre h "Bearer " ≠ "") :
    authTimeoutSeconds = 5 ∧
    (authRun url idResp h).2 =
      [{ url := url ++ "/validate", method := "POST",
         authHeader := "Bearer " ++ trimPre h "Bearer ",
         timeoutSeconds := 5 }] ∧
    (authRun url IdentityResponse.netErr h).1 = AuthStep.abort 500 ∧
    (∀ s cs, s ≠ 200 →
      (authRun url (IdentityResponse.resp s cs) h).1 = AuthStep.abort 401) ∧
    (authRun url (IdentityResponse.resp 200 none) h).1 = AuthStep.abort 500 ∧
    (∀ cs, (authRun url (IdentityResponse.resp 200 (some cs)) h).1
      = AuthStep.next cs) := by
  refine ⟨rfl, ?_, ?_, ?_, ?_, ?_⟩
  · rw [authRun_calls url idResp h hcred]
    rfl
  · simp [authRun, hcred]
  · intro s cs hs
    simp [authRun, hcred, hs]
  · simp [authRun, hcred]
  · intro cs
    simp [authRun, hcred]

/-- Witness for C4_identity_call_and_mapping at a concrete bearer
credential and a decodable 200 identity response. -/
theorem C4_witness :
    (authRun "http://auth-service:8080"
        (IdentityResponse.resp 200 (some aliceClaims)) "Bearer tok").1
      = AuthStep.next aliceClaims :=
  (C4_identity_call_and_mapping "http://auth-service:8080" "Bearer tok"
    (IdentityResponse.resp 200 (some aliceClaims)) (by decide)).2.2.2.2.2
    aliceClaims

/-- Claim C5: the dispatcher sends exactly one upstream request, whose
target is the route upstream URL plus the trimmed suffix with the raw
query appended unmodified, using the original method and body; every
original header under a non-forwarding key is copied unchanged; the
identity subject would be attached as X-User-ID when a stored user
claims mapping holds a string sub; X-Forwarded-For and
X-Forwarded-Host carry the client address and host. The claim's
X-Forwarded-Proto clause is false — see the counterexample — so here
the header is stated as what the code sets it to: the request URL
Scheme field. -/
theorem C5_proxy_request_construction (route : ServiceRoute)
    (user? : Option Claims) (upstream : UpstreamResult) (req : Request) :
    (proxyHandler route user? upstream req).upstreamCalls
      = [buildProxyRequest route user? req] ∧
    (buildProxyRequest route user? req).method = req.method ∧
    (buildProxyRequest route user? req).body = req.body ∧
    (buildProxyRequest route user? req).url
      = (if req.rawQuery = ""
         then route.url ++ trimPre req.path route.pathBase
         else route.url ++ trimPre req.path route.pathBase ++ "?" ++ req.rawQuery) ∧
    (∀ k, k ≠ "X-User-ID" → k ≠ "X-Forwarded-For" → k ≠ "X-Forwarded-Proto" →
      k ≠ "X-Forwarded-Host" →
      getAllHeader (buildProxyRequest route user? req).headers k
        = getAllHeader req.headers k) ∧
    getHeader (buildProxyRequest route user? req).headers "X-Forwarded-For"
      = req.clientIP ∧
    getHeader (buildProxyRequest route user? req).headers "X-Forwarded-Proto"
      = req.urlScheme ∧
    getHeader (buildProxyRequest route user? req).headers "X-Forwarded-Host"
      = req.host ∧
    (∀ cs uid, user? = some cs → cs.lookup "sub" = some (GoValue.str uid) →
      getHeader (buildProxyRequest route user? req).headers "X-User-ID" = uid) := by
  have hcopy : copyHeaders req.headers = req.headers := copyHeaders_eq _
  refine ⟨?_, rfl, rfl, ?_, ?_, ?_, ?_, ?_, ?_⟩
  · cases upstream <;> rfl
  · by_cases hq : req.rawQuery = "" <;>
      simp [buildProxyRequest, buildTargetURL, proxySuffix, hq]
  · intro k h1 h2 h3 h4
    simp only [buildProxyRequest, addForwardedHeaders, hcopy]
    rw [getAllHeader_setHeader_ne _ _ _ _ h4,
      getAllHeader_setHeader_ne _ _ _ _ h3,
      getAllHeader_setHeader_ne _ _ _ _ h2]
    cases user? with
    | none => simp only [forwardUserContext]
    | some cs =>
      simp only [forwardUserContext]
      cases hsub : List.lookup "sub" cs with
      | none => rfl
      | some gv =>
        cases gv with
        | str uid =>
          exact getAllHeader_setHeader_ne req.headers "X-User-ID" uid k h1
        | other => rfl
  · simp only [buildProxyRequest, addForwardedHeaders]
    rw [getHeader_setHeader_ne _ _ _ _ (by decide),
      getHeader_setHeader_ne _ _ _ _ (by decide),
      getHeader_setHeader_self]
  · simp only [buildProxyRequest, addForwardedHeaders]
    rw [getHeader_setHeader_ne _ _ _ _ (by decide),
      getHeader_setHeader_self]
  · simp only [buildProxyRequest, addForwardedHeaders]
    rw [getHeader_setHeader_self]
  · intro cs uid hu hsub
    subst hu
    simp only [buildProxyRequest, addForwardedHeaders, forwardUserContext,
      hsub, hcopy]
    rw [getHeader_setHeader_ne _ _ _ _ (by decide),
      getHeader_setHeader_ne _ _ _ _ (by decide),
      getHeader_setHeader_ne _ _ _ _ (by decide),
      getHeader_setHeader_self]

/-- Witness for C5_proxy_request_construction at a concrete request
with a query string, a spare header and a string subject claim. -/
theorem C5_witness :
    getAllHeader (buildProxyRequest configsRoute (some aliceClaims)
        richProxyReq).headers "Accept" = ["application/json"] ∧
    getHeader (buildProxyRequest configsRoute (some aliceClaims)
        richProxyReq).headers "X-User-ID" = "alice" ∧
    (buildProxyRequest configsRoute (some aliceClaims) richProxyReq).url
      = "http://configuration-service:8080/items/9?x=1&y=2" := by
  refine ⟨?_, ?_, ?_⟩
  · have h := (C5_proxy_request_construction configsRoute (some aliceClaims)
      UpstreamResult.netErr richProxyReq).2.2.2.2.1 "Accept"
      (by decide) (by decide) (by decide) (by decide)
    rw [h]
    decide
  · exact (C5_proxy_request_construction configsRoute (some aliceClaims)
      UpstreamResult.netErr richProxyReq).2.2.2.2.2.2.2.2 aliceClaims "alice"
      rfl rfl
  · have h := (C5_proxy_request_construction configsRoute (some aliceClaims)
      UpstreamResult.netErr richProxyReq).2.2.2.1
    rw [h]
    decide

/-- Claim C5, counterexample: the X-Forwarded-Proto header does not
carry the original scheme. createProxyHandler sets it from
c.Request.URL.Scheme, which net/http leaves empty for every
origin-form server request, so for a request that arrived over https
the outbound header holds the empty string, not https. -/
theorem C5_counterexample :
    getHeader (buildProxyRequest configsRoute none tlsReq).headers
        "X-Forwarded-Proto" = "" ∧
    getHeader (buildProxyRequest configsRoute none tlsReq).headers
        "X-Forwarded-Proto" ≠ "https" := by
  refine ⟨by decide, by decide⟩

/-- Claim C6: the claim requires a dispatched request's transport
failure to reach a client as 503 with one metrics observation, but the
program never dispatches any request — route registration panics at
startup — so the claimed outcome never occurs. What is in the code is
the handler body's mapping, stated here: for every request reaching
createProxyHandler whose upstream call fails at transport level, the
response is 503, exactly one error line is logged (never silently
swallowed) and exactly one upstream request was attempted; the stored
user claims are absent on the chains main wires, matching the
user-absent case. -/
theorem C6_handler_transport_failure (route : ServiceRoute)
    (user? : Option Claims) (req : Request) :
    (proxyHandler route user? UpstreamResult.netErr req).status = 503 ∧
    (proxyHandler route user? UpstreamResult.netErr req).errorLogLines = 1 ∧
    (proxyHandler route user? UpstreamResult.netErr req).upstreamCalls
      = [buildProxyRequest route user? req] :=
  ⟨rfl, rfl, rfl⟩

/-- Claim C7: a fresh (full, idle) token bucket of capacity N checked
N plus one times at one instant admits the first N checks and rejects
the last; advancing credits tokens at the refill rate capped at the
capacity, and an admission withdraws exactly one token. -/
theorem C7_token_bucket (cap : Nat) (rat : ℚ) (t : Nat) :
    (allowRun (freshBucket cap rat t) t (cap + 1)).1
      = List.replicate cap true ++ [false] ∧
    (∀ (b : TokenBucket) (now : Nat),
      (b.advance now).tokens
          = min (b.capacity : ℚ)
              (b.tokens + b.refillPerNs * ((now - b.lastNs : Nat) : ℚ)) ∧
      (b.advance now).tokens ≤ (b.capacity : ℚ)) ∧
    (∀ (b : TokenBucket) (now : Nat),
      (b.allow now).1 = decide (1 ≤ (b.advance now).tokens) ∧
      (b.allow now).2.tokens =
        (if 1 ≤ (b.advance now).tokens then (b.advance now).tokens - 1
         else (b.advance now).tokens)) := by
  refine ⟨?_, ?_, ?_⟩
  · have h := allowRun_same_instant cap rat t (cap + 1) cap (le_refl cap)
    have h1 : min cap (cap + 1) = cap := by omega
    rw [h1] at h
    have h2 : cap + 1 - cap = 1 := by omega
    rw [h2] at h
    simpa [freshBucket] using h
  · intro b now
    exact ⟨rfl, min_le_left _ _⟩
  · intro b now
    by_cases h : 1 ≤ (b.advance now).tokens <;>
      simp [TokenBucket.allow, h]

/-- Claim C8: the claimed local 405 is never produced. The monitoring
route registers only GET, so the POST request's method is unregistered
there, while its path lies under the API Service catch-all that is
registered for POST; no method-not-allowed handling exists anywhere in
the gateway (gin.New() leaves it off and 405 appears nowhere); and the
registration of the monitoring pattern itself conflicts with the
already-present /api/v1 catch-all, so gin panics at startup and no
such request is ever answered at all. -/
theorem C8_wrong_method_evidence :
    addPattern [routePattern apiServiceRoute] (routePattern monitoringRoute)
      = Except.error
          (routePattern monitoringRoute, routePattern apiServiceRoute) ∧
    wrongMethodReq.method ∉ registeredMethods monitoringRoute ∧
    wrongMethodReq.method ∈ registeredMethods apiServiceRoute ∧
    hasPre wrongMethodReq.path (registeredBase apiServiceRoute ++ "/") = true := by
  refine ⟨rfl, by decide, by decide, rfl⟩

/-- Claim C9, counterexample: for a path equal to the route prefix the
trimmed suffix is the empty string, not the slash the claim says it is
normalized to, and the target URL is the bare upstream base. -/
theorem C9_counterexample :
    proxySuffix configsRoute "/api/v1/configs" = "" ∧
    proxySuffix configsRoute "/api/v1/configs" ≠ "/" ∧
    buildTargetURL configsRoute "/api/v1/configs" ""
      = "http://configuration-service:8080" := by
  refine ⟨by decide, by decide, by decide⟩

/-- Claim C9, amended: the suffix passed to the dispatcher is exactly
the request path with the route prefix trimmed; an empty trim result
is passed through unchanged (no normalization to slash), so the target
URL of an exact-prefix path is the bare upstream base plus the query. -/
theorem C9_suffix_no_normalization (route : ServiceRoute) (path q : String) :
    proxySuffix route path = trimPre path route.pathBase ∧
    (proxySuffix route path = "" →
      buildTargetURL route path q =
        (if q = "" then route.url else route.url ++ "?" ++ q)) := by
  refine ⟨rfl, ?_⟩
  intro h
  by_cases hq : q = "" <;> simp [buildTargetURL, h, hq]

/-- Witness for C9_suffix_no_normalization at the configuration route
with an exact-prefix path and a query. -/
theorem C9_witness :
    buildTargetURL configsRoute "/api/v1/configs" "x=1"
      = "http://configuration-service:8080?x=1" := by
  have h := (C9_suffix_no_normalization configsRoute "/api/v1/configs" "x=1").2
    (by decide)
  rw [h]
  decide

/-- Claim C10: the auth middleware rejects with MissingCredential, 401
and no identity-service call, exactly when the Authorization header
value with an optional leading Bearer prefix removed is empty; any
other value — bearer or not — is forwarded to the identity service as
Bearer plus that value. -/
theorem C10_missing_credential_iff (url h : String)
    (idResp : IdentityResponse) :
    (authRun url idResp h = (AuthStep.abort 401, []) ↔
      trimPre h "Bearer " = "") ∧
    (trimPre h "Bearer " ≠ "" →
      (authRun url idResp h).2 =
        [{ url := url ++ "/validate", method := "POST",
           authHeader := "Bearer " ++ trimPre h "Bearer ",
           timeoutSeconds := authTimeoutSeconds }]) := by
  by_cases htok : trimPre h "Bearer " = ""
  · refine ⟨?_, fun hc => absurd htok hc⟩
    simp [authRun_no_credential url idResp h htok, htok]
  · have hcalls := authRun_calls url idResp h htok
    refine ⟨⟨?_, fun hc => absurd hc htok⟩, fun _ => hcalls⟩
    intro heq
    exfalso
    have hnil : (authRun url idResp h).2 = [] := by rw [heq]
    rw [hcalls] at hnil
    simp at hnil

/-- Witness for C10_missing_credential_iff: a Basic credential is not
trimmed, so it is forwarded to the identity service wrapped as a
bearer value. -/
theorem C10_witness :
    (authRun "http://auth-service:8080" IdentityResponse.netErr "Basic xyz").2 =
      [{ url := "http://auth-service:8080/validate", method := "POST",
         authHeader := "Bearer Basic xyz", timeoutSeconds := 5 }] := by
  have h := (C10_missing_credential_iff "http://auth-service:8080" "Basic xyz"
    IdentityResponse.netErr).2 (by decide)
  rw [h]
  decide

end Gateway
